import Mathlib

/- Shallow embedding of src/src/App.svelte (ably-labs/svelte-and-ably).

   The component binds the Svelte mount/unmount lifecycle to an Ably realtime
   channel.  On mount (Acquire) it obtains a channel handle, subscribes an
   anonymous message-appending listener, subscribes the updatePresence
   listener for the three presence event kinds, enters presence with the
   hardcoded initial payload "" and assigns the initial presence snapshot.
   The cleanup returned from onMount (Release) leaves presence, unsubscribes
   the three presence listeners, clears the visible presence set, calls
   channel.unsubscribe with the channel object itself as the argument, and
   detaches the channel.

   The Ably SDK is an external dependency (not part of this repository); its
   operations are embedded with the contract the specification states for
   them in sections 4 and 6 (channel.subscribe registers a listener and
   attaches the channel, channel.unsubscribe removes the registrations equal
   to its argument, presence.get returns the full current participant set,
   publish fails with PublishError when the channel is detached,
   presence.update fails with PresenceUpdateError when presence was never
   entered).  The channel-level state those operations act on is explicit.
   Message and presence deliveries are environment steps of the single
   event loop: a delivery reaches every listener still registered at that
   moment, independently of requests (leave, detach) that Release initiates
   but does not await. -/

namespace AblySvelte

/-- One inbound message as rendered by the component: the event name and the
text field of the data payload (the source publishes "test-message" with a
text payload and renders msg.data.text). -/
structure Message where
  name : String
  data : String
deriving DecidableEq, Repr

/-- One entry of a presence snapshot: the participant id and its presence
data payload (the markup renders msg.clientId and msg.data). -/
structure PresenceRecord where
  clientId : String
  data : String
deriving DecidableEq, Repr

/-- The three presence transition kinds the source subscribes to
(App.svelte lines 26 to 28). -/
inductive EventKind where
  | enter
  | leave
  | update
deriving DecidableEq, Repr

/-- Argument values the source passes to channel.subscribe and
channel.unsubscribe: listenerFn 0 stands for the anonymous message-appending
arrow function of App.svelte line 17, and channelRef stands for the channel
object itself, which the cleanup passes at line 40.  A channel object is a
different value from any listener function, so an unsubscribe by listener
equality with channelRef as argument matches nothing (in the actual ably-js
SDK a non-function argument is treated as an event name and also matches
nothing registered by the catch-all subscribe). -/
inductive SubArg where
  | listenerFn (id : Nat)
  | channelRef
deriving DecidableEq, Repr

/-- The state of the channel handle obtained from the external client:
registered message listeners, registration counts of the updatePresence
listener per presence event kind, whether this client has entered presence,
the current participant set on the channel, and whether the channel is
attached. -/
structure ChannelState where
  messageListeners : List SubArg
  enterSubs : Nat
  leaveSubs : Nat
  updateSubs : Nat
  entered : Bool
  participants : List PresenceRecord
  attached : Bool
deriving DecidableEq, Repr

/-- A channel handle as freshly obtained by ably.channels.get: no listeners,
presence not entered, no participants known, not attached. -/
def freshChannel : ChannelState :=
  { messageListeners := []
    enterSubs := 0
    leaveSubs := 0
    updateSubs := 0
    entered := false
    participants := []
    attached := false }

/-- The UI-visible component state: the reactive variables messages,
presenceData and channel of App.svelte lines 5 to 7.  The channel variable
is initialised to null, hence an Option. -/
structure AppState where
  messages : List Message
  presenceData : List PresenceRecord
  channel : Option ChannelState
deriving DecidableEq, Repr

/-- The component state before onMount runs: empty message list, empty
presence set, channel still null. -/
def initialState : AppState :=
  { messages := [], presenceData := [], channel := none }

/-- Failure modes of the UI-triggered calls: a thrown TypeError from
dereferencing the null channel variable, and the two per-call errors the
specification names for the external SDK operations. -/
inductive JsError where
  | nullDereference
  | publishError
  | presenceUpdateError
deriving DecidableEq, Repr

/-- Outcome of one UI-triggered call. -/
inductive CallResult where
  | ok
  | error (e : JsError)
deriving DecidableEq, Repr

/-- Registration count of the updatePresence listener for one event kind. -/
def presCount (ch : ChannelState) : EventKind → Nat
  | .enter => ch.enterSubs
  | .leave => ch.leaveSubs
  | .update => ch.updateSubs

/-- Effect of channel.presence.subscribe for one event kind: one more
registration of the updatePresence listener for that kind. -/
def presenceSubscribeCh (ch : ChannelState) : EventKind → ChannelState
  | .enter => { ch with enterSubs := ch.enterSubs + 1 }
  | .leave => { ch with leaveSubs := ch.leaveSubs + 1 }
  | .update => { ch with updateSubs := ch.updateSubs + 1 }

/-- Effect of channel.presence.unsubscribe for one event kind: removes every
listener registered for that kind. -/
def presenceUnsubscribeCh (ch : ChannelState) : EventKind → ChannelState
  | .enter => { ch with enterSubs := 0 }
  | .leave => { ch with leaveSubs := 0 }
  | .update => { ch with updateSubs := 0 }

/-- The clientId the source configures for the Ably client
(App.svelte line 13). -/
def clientId : String := "someid"

/-- Effect of one presence transition on the participant set of the channel:
the set is a member map keyed by clientId, so enter and update replace the
entry of that participant and leave removes it. -/
def presenceApply (k : EventKind) (r : PresenceRecord)
    (ps : List PresenceRecord) : List PresenceRecord :=
  match k with
  | .leave => ps.filter (fun p => p.clientId != r.clientId)
  | .enter => ps.filter (fun p => p.clientId != r.clientId) ++ [r]
  | .update => ps.filter (fun p => p.clientId != r.clientId) ++ [r]

/-- The SDK calls App.svelte makes during onMount and during the returned
cleanup, in a form an interpreter can replay in source order. -/
inductive Op where
  | getChannel (name : String)
  | subscribeMessages (l : SubArg)
  | presenceSubscribe (k : EventKind)
  | presenceEnter (payload : String)
  | presenceGetAssign
  | presenceLeave
  | presenceUnsubscribe (k : EventKind)
  | resetPresenceData
  | channelUnsubscribe (arg : SubArg)
  | detach
deriving DecidableEq, Repr

/-- Applies an update to the channel the component state holds.  The source
only reaches these operations after the channel variable has been assigned
(onMount assigns it before any of them, and Svelte runs the cleanup only
after the onMount body ran), so the null case cannot occur on the replayed
programs. -/
def onChannel (s : AppState) (f : ChannelState → ChannelState) : AppState :=
  { s with channel := s.channel.map f }

/-- Semantics of one SDK call, per the external contract the specification
states in sections 4 and 6.  subscribeMessages also attaches the channel
(subscribing implicitly attaches).  presenceGetAssign is the statement
presenceData = await channel.presence.get(): it assigns the full current
participant set.  channelUnsubscribe removes exactly the registrations equal
to its argument. -/
def runOp (s : AppState) : Op → AppState
  | .getChannel _ => { s with channel := some freshChannel }
  | .subscribeMessages l =>
      onChannel s (fun ch =>
        { ch with messageListeners := ch.messageListeners ++ [l], attached := true })
  | .presenceSubscribe k => onChannel s (fun ch => presenceSubscribeCh ch k)
  | .presenceEnter payload =>
      onChannel s (fun ch =>
        { ch with
          entered := true
          participants := presenceApply .enter ⟨clientId, payload⟩ ch.participants })
  | .presenceGetAssign =>
      match s.channel with
      | some ch => { s with presenceData := ch.participants }
      | none => s
  | .presenceLeave =>
      onChannel s (fun ch =>
        { ch with
          entered := false
          participants := presenceApply .leave ⟨clientId, ""⟩ ch.participants })
  | .presenceUnsubscribe k => onChannel s (fun ch => presenceUnsubscribeCh ch k)
  | .resetPresenceData => { s with presenceData := [] }
  | .channelUnsubscribe arg =>
      onChannel s (fun ch =>
        { ch with messageListeners := ch.messageListeners.filter (fun l => l != arg) })
  | .detach => onChannel s (fun ch => { ch with attached := false })

/-- Replays a list of SDK calls in order on a component state. -/
def run (p : List Op) (s : AppState) : AppState := p.foldl runOp s

/-- The calls the onMount body makes, in source order (App.svelte lines
10 to 32): obtain the channel, subscribe the anonymous message listener,
subscribe updatePresence for enter, leave and update, await presence.enter
with the hardcoded initial payload "", then fetch and assign the initial
presence snapshot.  The trailing awaits live in the self-invoking async
function; in the single event loop they complete in this statement order. -/
def acquireProgram : List Op :=
  [ .getChannel "your-channel-name"
  , .subscribeMessages (.listenerFn 0)
  , .presenceSubscribe .enter
  , .presenceSubscribe .leave
  , .presenceSubscribe .update
  , .presenceEnter ""
  , .presenceGetAssign ]

/-- The calls the cleanup returned from onMount makes, in source order
(App.svelte lines 34 to 42): leave presence, unsubscribe the three presence
listeners, clear presenceData, call channel.unsubscribe passing the channel
object as the argument, detach the channel. -/
def releaseProgram : List Op :=
  [ .presenceLeave
  , .presenceUnsubscribe .enter
  , .presenceUnsubscribe .leave
  , .presenceUnsubscribe .update
  , .resetPresenceData
  , .channelUnsubscribe .channelRef
  , .detach ]

/-- Acquire: the full effect of one onMount invocation. -/
def acquire (s : AppState) : AppState := run acquireProgram s

/-- Release: the full effect of the cleanup returned from onMount. -/
def release (s : AppState) : AppState := run releaseProgram s

/-- The component state after the synchronous part of onMount and the
synchronous prefix of the async function, while the awaited presence.enter
has not completed yet: channel assigned and all listeners registered, but
presence not entered. -/
def midMountState : AppState := run (acquireProgram.take 5) initialState

/-- updatePresence (App.svelte lines 21 to 23): assigns the full presence
snapshot fetched from the channel to the reactive presenceData variable. -/
def updatePresence (s : AppState) : AppState :=
  match s.channel with
  | some ch => { s with presenceData := ch.participants }
  | none => s

/-- Environment step: the event loop delivers one inbound message.  Every
message listener still registered on the channel is invoked; the only
listener the source ever registers is the appender of App.svelte lines
17 to 19, so each registration appends the message once. -/
def deliverMessage (m : Message) (s : AppState) : AppState :=
  match s.channel with
  | none => s
  | some ch =>
      { s with messages := s.messages ++ ch.messageListeners.map (fun _ => m) }

/-- Environment step: the event loop delivers one presence transition.  The
participant set of the channel changes accordingly, and when the
updatePresence listener is registered for that event kind it runs and
assigns the fresh full snapshot. -/
def deliverPresenceEvent (k : EventKind) (r : PresenceRecord)
    (s : AppState) : AppState :=
  match s.channel with
  | none => s
  | some ch =>
      let s1 : AppState :=
        { s with channel := some { ch with participants := presenceApply k r ch.participants } }
      if presCount ch k ≠ 0 then updatePresence s1 else s1

/-- sendMessage (App.svelte lines 46 to 48): channel.publish with no guard
on the channel variable.  A call while channel is still null throws from the
null dereference; otherwise the publish is delegated to the SDK, which per
the stated contract fails with PublishError when the channel is detached. -/
def sendMessage (s : AppState) : CallResult :=
  match s.channel with
  | none => .error .nullDereference
  | some ch => if ch.attached then .ok else .error .publishError

/-- update (App.svelte lines 50 to 52): channel.presence.update with no
guard on the channel variable.  A call while channel is still null throws
from the null dereference; otherwise the update is delegated to the SDK,
which per the stated contract fails with PresenceUpdateError when presence
was never entered.  The error of a failing call is returned per call; no
retry happens anywhere in the component. -/
def update (s : AppState) : CallResult :=
  match s.channel with
  | none => .error .nullDereference
  | some ch => if ch.entered then .ok else .error .presenceUpdateError

/-- Number of message listener registrations the component state holds. -/
def msgRegCount (s : AppState) : Nat :=
  match s.channel with
  | none => 0
  | some ch => ch.messageListeners.length

/-- Number of presence listener registrations for one event kind. -/
def presRegCount (s : AppState) (k : EventKind) : Nat :=
  match s.channel with
  | none => 0
  | some ch => presCount ch k

/-- A channel on which only the three presence listeners are registered and
whose participant set is still empty; used as a concrete scenario for the
snapshot and safety properties. -/
def demoChannel : ChannelState :=
  { messageListeners := []
    enterSubs := 1
    leaveSubs := 1
    updateSubs := 1
    entered := false
    participants := []
    attached := true }

/-- A concrete mounted component state holding demoChannel. -/
def demoState : AppState :=
  { messages := [], presenceData := [], channel := some demoChannel }

/-- Helper for C2: delivering any list of messages to a state whose channel
carries exactly the one appender registration appends exactly those messages
in arrival order. -/
theorem deliverList_messages (ms : List Message) :
    ∀ (s : AppState) (ch : ChannelState), s.channel = some ch →
      ch.messageListeners = [SubArg.listenerFn 0] →
      (ms.foldl (fun t m => deliverMessage m t) s).messages = s.messages ++ ms := by
  induction ms with
  | nil => intro s ch h hl; simp
  | cons m ms ih =>
      intro s ch h hl
      have hch : (deliverMessage m s).channel = some ch := by
        simp [deliverMessage, h]
      have hmsg : (deliverMessage m s).messages = s.messages ++ [m] := by
        simp [deliverMessage, h, hl]
      simp only [List.foldl_cons]
      rw [ih (deliverMessage m s) ch hch hl, hmsg, List.append_assoc]
      simp

/-- Claim C1: every listener registration made during Acquire has exactly
one matching deregistration executed during Release.  Evaluating one mount
cycle shows this fails: Acquire registers one message listener and one
presence listener per kind; Release removes the three presence
registrations, but the channel.unsubscribe call of the cleanup passes the
channel object rather than the registered listener, so the message listener
registration survives Release. -/
theorem c1_release_leaves_message_listener_registered :
    msgRegCount (acquire initialState) = 1 ∧
    presRegCount (acquire initialState) EventKind.enter = 1 ∧
    presRegCount (acquire initialState) EventKind.leave = 1 ∧
    presRegCount (acquire initialState) EventKind.update = 1 ∧
    presRegCount (release (acquire initialState)) EventKind.enter = 0 ∧
    presRegCount (release (acquire initialState)) EventKind.leave = 0 ∧
    presRegCount (release (acquire initialState)) EventKind.update = 0 ∧
    msgRegCount (release (acquire initialState)) = 1 := by
  decide

/-- Claim C2: for every sequence of messages delivered after Acquire and
before Release, the visible message sequence equals exactly those messages
in arrival order, with no drop, duplication or reordering. -/
theorem c2_messages_equal_deliveries_in_order (ms : List Message) :
    (ms.foldl (fun t m => deliverMessage m t) (acquire initialState)).messages = ms := by
  have h := deliverList_messages ms (acquire initialState)
      ⟨[SubArg.listenerFn 0], 1, 1, 1, true, [⟨clientId, ""⟩], true⟩ rfl rfl
  exact h.trans rfl

/-- Witness for C2 at a concrete two-message delivery. -/
theorem c2_witness_two_messages :
    ([⟨"test-message", "one"⟩, ⟨"test-message", "two"⟩].foldl
        (fun t m => deliverMessage m t) (acquire initialState)).messages
      = [⟨"test-message", "one"⟩, ⟨"test-message", "two"⟩] :=
  c2_messages_equal_deliveries_in_order
    [⟨"test-message", "one"⟩, ⟨"test-message", "two"⟩]

/-- Claim C3: after Release no subsequently delivered event mutates the
UI-visible state of the torn-down mount instance.  Evaluating the code shows
this fails: because the channel.unsubscribe call of the cleanup removes no
listener, a message delivered after Release is still appended to the
messages state of the torn-down instance. -/
theorem c3_late_message_mutates_torn_down_state :
    (release (acquire initialState)).messages = [] ∧
    (deliverMessage ⟨"test-message", "late"⟩ (release (acquire initialState))).messages
      = [⟨"test-message", "late"⟩] := by
  decide

/-- Claim C4: Release performs leave, then the three presence
deregistrations, then the presence reset, then the message-listener
deregistration, then detach.  Evaluating the steps of the cleanup in source
order: after step one presence is left; after the next three steps the
presence registrations are gone while presenceData is still nonempty; step
five resets presenceData; but step six, the channel.unsubscribe call made
where the claim places the message-listener deregistration, leaves the
message listener registered (it passes the channel object); step seven then
detaches. -/
theorem c4_release_step_effects_in_order :
    (run (releaseProgram.take 1) (acquire initialState)).channel.map
        (fun ch => ch.entered) = some false ∧
    presRegCount (run (releaseProgram.take 4) (acquire initialState)) EventKind.enter = 0 ∧
    presRegCount (run (releaseProgram.take 4) (acquire initialState)) EventKind.leave = 0 ∧
    presRegCount (run (releaseProgram.take 4) (acquire initialState)) EventKind.update = 0 ∧
    (run (releaseProgram.take 4) (acquire initialState)).presenceData ≠ [] ∧
    (run (releaseProgram.take 5) (acquire initialState)).presenceData = [] ∧
    msgRegCount (run (releaseProgram.take 6) (acquire initialState)) = 1 ∧
    (run (releaseProgram.take 6) (acquire initialState)).channel.map
        (fun ch => ch.attached) = some true ∧
    (release (acquire initialState)).channel.map
        (fun ch => ch.attached) = some false := by
  decide

/-- Claim C5: on every presence transition event of any kind delivered while
the corresponding listener is registered, the visible presence set is
replaced with the full current participant set of the channel, never
computed as a delta of the previous visible set. -/
theorem c5_presence_event_assigns_full_snapshot (k : EventKind)
    (r : PresenceRecord) (s : AppState) (ch : ChannelState)
    (h : s.channel = some ch) (hk : presCount ch k ≠ 0) :
    (deliverPresenceEvent k r s).presenceData = presenceApply k r ch.participants := by
  simp [deliverPresenceEvent, h, hk, updatePresence]

/-- Witness for C5: participant A enters an empty channel and the snapshot
becomes exactly the singleton of A; the chain A enters, B enters, A leaves
yields the snapshot holding exactly B. -/
theorem c5_witness_enter_enter_leave :
    (deliverPresenceEvent .enter ⟨"A", ""⟩ demoState).presenceData
      = presenceApply .enter ⟨"A", ""⟩ demoChannel.participants ∧
    (deliverPresenceEvent .leave ⟨"A", ""⟩ (deliverPresenceEvent .enter ⟨"B", ""⟩
        (deliverPresenceEvent .enter ⟨"A", ""⟩ demoState))).presenceData
      = [⟨"B", ""⟩] :=
  ⟨c5_presence_event_assigns_full_snapshot .enter ⟨"A", ""⟩ demoState demoChannel
      rfl (by decide),
   by decide⟩

/-- Claim C6 as stated is false: the counterexample is a Publish call made
before Acquire has assigned the channel variable.  The call fails by
dereferencing null, a thrown TypeError, not a surfaced PublishError. -/
theorem c6_counterexample_publish_before_acquire_crashes :
    sendMessage initialState = CallResult.error JsError.nullDereference ∧
    sendMessage initialState ≠ CallResult.error JsError.publishError := by
  decide

/-- Claim C6 amended: a Publish call made after Release (channel detached)
fails with PublishError and is not silently dropped; a Publish call made
before Acquire has assigned the channel variable fails by null dereference
rather than PublishError; after Acquire, with the channel attached, publish
succeeds. -/
theorem c6_publish_error_windows_amended :
    sendMessage (release (acquire initialState)) = CallResult.error JsError.publishError ∧
    sendMessage initialState = CallResult.error JsError.nullDereference ∧
    sendMessage (acquire initialState) = CallResult.ok := by
  decide

/-- Claim C7 as stated is false: the counterexample is an Update Presence
call made before Acquire has assigned the channel variable, a state in which
presence was never entered.  The call fails by dereferencing null, a thrown
TypeError, not a surfaced PresenceUpdateError. -/
theorem c7_counterexample_update_before_acquire_crashes :
    update initialState = CallResult.error JsError.nullDereference ∧
    update initialState ≠ CallResult.error JsError.presenceUpdateError := by
  decide

/-- Claim C7 amended: once the channel variable is assigned, an Update
Presence call made while presence was never entered fails with the per-call
PresenceUpdateError and is not retried; a call made before the channel
variable is assigned fails by null dereference instead; after presence entry
the call succeeds. -/
theorem c7_presence_update_error_amended :
    update midMountState = CallResult.error JsError.presenceUpdateError ∧
    update initialState = CallResult.error JsError.nullDereference ∧
    update (acquire initialState) = CallResult.ok := by
  decide

/-- Claim C8: during Acquire the presence-entry step (with the initial
payload, the hardcoded empty string) completes before the initial presence
snapshot is fetched and assigned.  Behaviourally, the initial snapshot
Acquire assigns already contains the own entry produced by that presence
entry; and in the replayed source order the enter call precedes the snapshot
fetch. -/
theorem c8_enter_awaited_before_first_snapshot :
    (acquire initialState).presenceData = [⟨clientId, ""⟩] ∧
    acquireProgram.indexOf (Op.presenceEnter "") < acquireProgram.indexOf
      Op.presenceGetAssign := by
  decide

/-- Claim C9: Release resets only the visible presence set and leaves the
visible message sequence unchanged, for every pre-teardown state. -/
theorem c9_release_frame_messages_unchanged (s : AppState) :
    (release s).messages = s.messages ∧ (release s).presenceData = [] :=
  ⟨rfl, rfl⟩

/-- Witness for C9 at the post-Acquire state of a fresh mount. -/
theorem c9_witness_release_frame :
    (release (acquire initialState)).messages = (acquire initialState).messages ∧
    (release (acquire initialState)).presenceData = [] :=
  c9_release_frame_messages_unchanged (acquire initialState)

/-- Claim C10: sendMessage and update dereference the channel variable with
no guard, so a call made while channel is still null fails by null
dereference; and once the channel variable holds a channel, every operation
of the component keeps it non-null, so later calls never fail by null
dereference. -/
theorem c10_null_guard_safety :
    sendMessage initialState = CallResult.error JsError.nullDereference ∧
    update initialState = CallResult.error JsError.nullDereference ∧
    ∀ (s : AppState), s.channel.isSome = true →
      (∀ op : Op, (runOp s op).channel.isSome = true) ∧
      (∀ m : Message, (deliverMessage m s).channel.isSome = true) ∧
      (∀ (k : EventKind) (r : PresenceRecord),
        (deliverPresenceEvent k r s).channel.isSome = true) ∧
      sendMessage s ≠ CallResult.error JsError.nullDereference ∧
      update s ≠ CallResult.error JsError.nullDereference := by
  refine ⟨rfl, rfl, ?_⟩
  intro s hs
  obtain ⟨ch, hch⟩ := Option.isSome_iff_exists.mp hs
  refine ⟨?_, ?_, ?_, ?_, ?_⟩
  · intro op
    cases op <;> simp [runOp, onChannel, hch]
  · intro m
    simp [deliverMessage, hch]
  · intro k r
    simp only [deliverPresenceEvent, hch]
    split <;> simp [updatePresence]
  · simp only [sendMessage, hch]
    split <;> simp
  · simp only [update, hch]
    split <;> simp

/-- Witness for C10 at a concrete mounted state. -/
theorem c10_witness_mounted_state :
    (∀ op : Op, (runOp demoState op).channel.isSome = true) ∧
    (∀ m : Message, (deliverMessage m demoState).channel.isSome = true) ∧
    (∀ (k : EventKind) (r : PresenceRecord),
      (deliverPresenceEvent k r demoState).channel.isSome = true) ∧
    sendMessage demoState ≠ CallResult.error JsError.nullDereference ∧
    update demoState ≠ CallResult.error JsError.nullDereference :=
  c10_null_guard_safety.2.2 demoState rfl

end AblySvelte
